import Mathlib

/-!
Shallow embedding of the ARIBA scraping engine's core algorithms, translated
from the Python sources:

* `scraper_engine_improved.py` — `robust_element_interaction_improved`,
  `_try_multiple_click_methods_improved`, `analyze_element_differences`,
  `wait_for_download`;
* `scraper_engine.py` — `select_cliente_autonomous` (the dropdown strategy loop);
* `sistema_iterativo_completo.py` — `SistemaUltraRapido`'s consecutive-error
  counter, `navigate_ultra_fast`, `process_single_licitacion_ultra_fast`,
  `wait_download_ultra_fast`, `is_ariba_file_ultra_fast`,
  `analyze_basic_content`, `classify_score_ultra_fast`, and the batch loop.

The Selenium driver is modelled as an environment: a page maps each XPath
selector string to a find outcome (timeout, generic exception, or an element
descriptor), and an element descriptor records the booleans that determine
which interaction calls raise.  Wall-clock polling loops are modelled in
discrete time: poll `k` sees the directory listing `timeline k`, and the
number of loop iterations is the ceiling of timeout over poll interval,
exactly the number of `while time.time() - start < timeout: sleep(interval)`
iterations in the source.  Side effects that do not influence the values the
claims speak about (logging, screenshots, scrolling, the rename of a detected
download into the local directory) are elided.
-/

namespace Ariba

/-- Descriptor of one live element, as inspected by the engine: the fields the
Python code reads (`tag_name`, `text`, `class`, `id`, `is_displayed`,
`is_enabled`) plus the environment's answers for each interaction call the
engine may issue: whether the clickability wait succeeds, whether each click
method raises, and what `get_attribute("value")` reads back after
`clear()`/`send_keys(v)` (`readBack v`). -/
structure Element where
  tag : String
  text : String
  cls : String
  eid : String
  displayed : Bool
  enabled : Bool
  clickableWait : Bool
  clickRaises : Bool
  jsClickRaises : Bool
  acMoveClickRaises : Bool
  acOffsetClickRaises : Bool
  submitRaises : Bool
  spaceRaises : Bool
  enterRaises : Bool
  readBack : String → String

/-- Outcome of `WebDriverWait(...).until(presence_of_element_located(selector))`:
a `TimeoutException`, some other exception (caught by the generic
`except Exception` arm), or a found element. -/
inductive FindOutcome where
  | timeout
  | err (msg : String)
  | found (e : Element)

/-- A page assigns a find outcome to every selector string. -/
def Page : Type := String → FindOutcome

/-- The seven click methods of `_try_multiple_click_methods_improved`, in
order, each reduced to "does invoking it raise".  The last three lambdas are
guarded by the element's tag: when the guard fails the Python lambda evaluates
to `None` without doing anything and without raising, so the entry is `false`
(no exception). -/
def clickMethodRaises (e : Element) : List Bool :=
  [e.clickRaises,
   e.jsClickRaises,
   e.acMoveClickRaises,
   e.acOffsetClickRaises,
   if e.tag = "input" ∨ e.tag = "button" then e.submitRaises else false,
   if e.tag = "button" then e.spaceRaises else false,
   if e.tag = "button" then e.enterRaises else false]

/-- The `for method_name, method_func in methods` loop body: re-check
clickability (a raise there is caught and skips to the next method), call the
method, and return `True` on the first call that completes without raising. -/
def tryClickLoop (e : Element) : List Bool → Bool
  | [] => false
  | raises :: rest =>
      if e.clickableWait && !raises then true else tryClickLoop e rest

/-- `_try_multiple_click_methods_improved` (scraper_engine_improved.py,
lines 221-247). -/
def tryMultipleClickMethodsImproved (e : Element) : Bool :=
  tryClickLoop e (clickMethodRaises e)

/-- One attempt record appended to `result['attempts']`. -/
structure Attempt where
  selector : String
  index : Nat
  success : Bool
  error : Option String
deriving Repr, DecidableEq

/-- The result dict built by `robust_element_interaction_improved`. -/
structure InteractionResult where
  success : Bool
  selector_used : Option String
  element_info : Option Element
  error : Option String
  attempts : List Attempt

/-- `result['attempts'].append(attempt)` followed by moving to the next
selector: the attempt is recorded in front of whatever the rest of the loop
produces. -/
def consAttempt (a : Attempt) (r : InteractionResult) : InteractionResult :=
  { r with attempts := a :: r.attempts }

/-- `str(e)[:100]`. -/
def truncate100 (s : String) : String :=
  (s.toList.take 100).asString

/-- The selector loop of `robust_element_interaction_improved`
(scraper_engine_improved.py, lines 126-219).  `total` is the length of the
full selector list (used in the final error message), `i` the zero-based index
of the current selector.  Branches, in source order: presence wait (timeout /
generic exception recorded and loop continues), visibility check (invisible
match recorded as "Elemento presente pero no visible" and loop continues),
then the action: `click` succeeds when one click method completes, `write`
(with a truthy value) clears, types, and succeeds only when the read-back
value equals the input, `find` succeeds immediately; any non-success falls
through, appends the attempt, and continues with the next selector. -/
def robustLoop (page : Page) (action : String) (value : Option String)
    (total : Nat) : List String → Nat → InteractionResult
  | [], _ =>
      { success := false, selector_used := none, element_info := none,
        error := some ("Todos los " ++ toString total ++ " selectores fallaron"),
        attempts := [] }
  | sel :: rest, i =>
      match page sel with
      | .timeout =>
          consAttempt ⟨sel, i + 1, false, some "Timeout"⟩
            (robustLoop page action value total rest (i + 1))
      | .err msg =>
          consAttempt ⟨sel, i + 1, false, some (truncate100 msg)⟩
            (robustLoop page action value total rest (i + 1))
      | .found e =>
          if e.displayed = false then
            consAttempt ⟨sel, i + 1, false, some "Elemento presente pero no visible"⟩
              (robustLoop page action value total rest (i + 1))
          else if action = "click" then
            if tryMultipleClickMethodsImproved e then
              { success := true, selector_used := some sel, element_info := some e,
                error := none, attempts := [⟨sel, i + 1, true, none⟩] }
            else
              consAttempt ⟨sel, i + 1, false, none⟩
                (robustLoop page action value total rest (i + 1))
          else if action = "write" then
            match value with
            | some v =>
                if v ≠ "" then
                  if e.readBack v = v then
                    { success := true, selector_used := some sel, element_info := some e,
                      error := none, attempts := [⟨sel, i + 1, true, none⟩] }
                  else
                    consAttempt ⟨sel, i + 1, false, none⟩
                      (robustLoop page action value total rest (i + 1))
                else
                  consAttempt ⟨sel, i + 1, false, none⟩
                    (robustLoop page action value total rest (i + 1))
            | none =>
                consAttempt ⟨sel, i + 1, false, none⟩
                  (robustLoop page action value total rest (i + 1))
          else if action = "find" then
            { success := true, selector_used := some sel, element_info := some e,
              error := none, attempts := [⟨sel, i + 1, true, none⟩] }
          else
            consAttempt ⟨sel, i + 1, false, none⟩
              (robustLoop page action value total rest (i + 1))

/-- `robust_element_interaction_improved` (scraper_engine_improved.py,
lines 107-219).  The unused `timeout` parameter and the `step_name` label
(logging/screenshots only) are elided. -/
def robust_element_interaction_improved (page : Page) (selectors_list : List String)
    (action : String) (value : Option String) : InteractionResult :=
  robustLoop page action value selectors_list.length selectors_list 0

/-- A find outcome yields a usable control when an element is present and
visible (the engine checks `is_displayed` only). -/
def usableOutcome : FindOutcome → Bool
  | .found e => e.displayed
  | _ => false

/-- The strategy loop of `select_cliente_autonomous` (scraper_engine.py,
lines 668-693): each strategy result is a boolean (an exception counts as
`false`, caught by the loop); after a strategy opens the dropdown,
`select_cliente_codelco` (result `codelco`) must also succeed, otherwise the
loop continues with the next strategy.  Returns the overall outcome and how
many strategies were invoked. -/
def selectClienteLoop (codelco : Bool) : List Bool → Nat → Bool × Nat
  | [], tried => (false, tried)
  | s :: rest, tried =>
      if s then
        if codelco then (true, tried + 1)
        else selectClienteLoop codelco rest (tried + 1)
      else selectClienteLoop codelco rest (tried + 1)

/-- `select_cliente_autonomous` (scraper_engine.py, lines 668-693), over the
four-strategy list whose head is the known-locator tier
(`_strategy_known_selectors`). -/
def select_cliente_autonomous (strategies : List Bool) (codelco : Bool) : Bool × Nat :=
  selectClienteLoop codelco strategies 0

/-- A captured button record; of the fields stored by
`capture_page_elements_detailed` only those the diff analyzer consults are
kept, with `outer_html` (the first 200 characters of `outerHTML`) serving as
the dictionary key. -/
structure Button where
  text : String
  cls : String
  outer_html : String
deriving Repr, DecidableEq

/-- A captured clickable-div record (the diff analyzer only uses the list of
them positionally). -/
structure ClickableDiv where
  text : String
  cls : String
deriving Repr, DecidableEq

/-- A page snapshot as produced by `capture_page_elements_detailed`:
`page_hash` is `hash(driver.page_source)`, plus the captured button and
clickable-div lists. -/
structure PageSnapshot where
  page_hash : Int
  all_buttons : List Button
  all_clickable_divs : List ClickableDiv
deriving Repr, DecidableEq

/-- An entry of `new_elements`: `{'type': 'button', ...}` or
`{'type': 'menu', ...}`. -/
inductive DiffElement where
  | button (b : Button)
  | menu (d : ClickableDiv)
deriving Repr, DecidableEq

/-- The analysis dict built by `analyze_element_differences`. -/
structure DiffAnalysis where
  page_changed : Bool
  new_elements : List DiffElement
  disappeared_elements : List DiffElement
  likely_clicked_element : Option DiffElement
  new_menus_detected : Bool
deriving Repr, DecidableEq

/-- Key semantics of `{btn['outer_html']: btn for btn in buttons}`: for
duplicate `outer_html` keys the last record wins.  (CPython iterates the
resulting key set in hash order; the embedding fixes the deterministic
insertion order, which is the only difference and does not affect which
elements appear.) -/
def dedupKeepLast : List Button → List Button
  | [] => []
  | b :: rest =>
      if rest.any (fun c => c.outer_html == b.outer_html) then dedupKeepLast rest
      else b :: dedupKeepLast rest

/-- `analyze_element_differences` (scraper_engine_improved.py, lines 548-603):
`page_changed` from fingerprint inequality; `new_elements` = buttons of
`after` whose `outer_html` key is absent from `before`, then, when the
clickable-div list grew, the trailing divs as `menu` entries;
`disappeared_elements` is initialised to the empty list and never filled in by
the source; `likely_clicked_element` = first new element, but only when the
page also changed. -/
def analyze_element_differences (before after : PageSnapshot) : DiffAnalysis :=
  let page_changed : Bool := before.page_hash != after.page_hash
  let beforeKeys := before.all_buttons.map (fun b => b.outer_html)
  let newButtons :=
    dedupKeepLast (after.all_buttons.filter (fun b => !(beforeKeys.contains b.outer_html)))
  let buttonElems := newButtons.map DiffElement.button
  let menusDetected : Bool :=
    before.all_clickable_divs.length < after.all_clickable_divs.length
  let menuElems :=
    if menusDetected then
      (after.all_clickable_divs.drop before.all_clickable_divs.length).map DiffElement.menu
    else []
  let newElems := buttonElems ++ menuElems
  { page_changed := page_changed
    new_elements := newElems
    disappeared_elements := []
    likely_clicked_element :=
      if page_changed && !newElems.isEmpty then newElems.head? else none
    new_menus_detected := menusDetected }

/-- A file observed in a watched directory: its name, its size in bytes at the
observation, and whether `exists()` still answers true when re-checked. -/
structure DFile where
  name : String
  size : Nat
  ex : Bool
deriving Repr, DecidableEq

/-- `pathlib.Path(name).suffix`: the substring from the last dot, provided
that dot is neither the leading character nor the trailing one. -/
def fileSuffix (name : String) : String :=
  let cs := name.toList
  match ((List.range cs.length).filter (fun i => cs.get? i = some '.')).getLast? with
  | none => ""
  | some i => if 0 < i ∧ i + 1 < cs.length then (cs.drop i).asString else ""

/-- ASCII lower-casing of one character (`str.lower()` restricted to ASCII,
which covers every name and keyword the engine compares). -/
def asciiLowerChar (c : Char) : Char :=
  if 'A' ≤ c ∧ c ≤ 'Z' then Char.ofNat (c.toNat + 32) else c

/-- ASCII upper-casing of one character (`str.upper()` restricted to ASCII). -/
def asciiUpperChar (c : Char) : Char :=
  if 'a' ≤ c ∧ c ≤ 'z' then Char.ofNat (c.toNat - 32) else c

/-- `s.lower()`. -/
def lowerString (s : String) : String :=
  (s.toList.map asciiLowerChar).asString

/-- `s.upper()`. -/
def upperString (s : String) : String :=
  (s.toList.map asciiUpperChar).asString

/-- Whether the first list is a prefix of the second. -/
def isPrefixChars : List Char → List Char → Bool
  | [], _ => true
  | _ :: _, [] => false
  | a :: as, b :: bs => a == b && isPrefixChars as bs

/-- Whether `sub` occurs as a contiguous run inside `s`. -/
def occursIn : List Char → List Char → Bool
  | [], sub => sub.isEmpty
  | c :: rest, sub => isPrefixChars sub (c :: rest) || occursIn rest sub

/-- Python's `sub in s` substring test. -/
def containsSub (s sub : String) : Bool :=
  occursIn s.toList sub.toList

/-- The in-progress download markers checked by `wait_for_download`. -/
def inProgressMarkers : List String := [".part", ".tmp", ".crdownload"]

/-- `any(ext in file_path.suffix.lower() for ext in ['.part', '.tmp', '.crdownload'])`. -/
def isInProgressFile (f : DFile) : Bool :=
  inProgressMarkers.any (fun ext => containsSub (lowerString (fileSuffix f.name)) ext)

/-- The per-file acceptance test inside `wait_for_download`
(scraper_engine_improved.py, lines 902-911): skip the file while its suffix
carries an in-progress marker, then require more than 1000 bytes. -/
def waitForDownloadAccepts (f : DFile) : Bool :=
  !isInProgressFile f && f.size > 1000

/-- Outcome of a polling wait: the returned file (none is the timeout
failure), how many polls ran, and whether the extra grace sleep before
returning (`time.sleep(2)`) was performed. -/
structure WaitOutcome where
  file : Option DFile
  polls : Nat
  graceWaited : Bool
deriving Repr, DecidableEq

/-- New-file scan of one poll: files now listed whose names were not in the
call-start listing, filtered to the first acceptable one. -/
def findNewFile (accepts : DFile → Bool) (existing : List String)
    (files : List DFile) : Option DFile :=
  (files.filter (fun f => !(existing.contains f.name))).find? accepts

/-- Ceiling division: the iteration count of
`while time.time() - start < timeout: sleep(interval); ...`. -/
def ceilDiv (a b : Nat) : Nat := (a + b - 1) / b

/-- The shared polling skeleton of both download waits: `probe k` is what
poll `k` accepts (if anything); `grace` records whether the source performs an
extra grace sleep before returning an accepted file (`wait_for_download`
does, the ultra-fast variant does not). -/
def pollLoop (probe : Nat → Option DFile) (grace : Bool) : Nat → Nat → WaitOutcome
  | 0, k => { file := none, polls := k, graceWaited := false }
  | fuel + 1, k =>
      match probe k with
      | some f => { file := some f, polls := k + 1, graceWaited := grace }
      | none => pollLoop probe grace fuel (k + 1)

/-- `wait_for_download` (scraper_engine_improved.py, lines 883-920): poll every
3 seconds for up to `timeout_seconds`, return the first new file that passes
`waitForDownloadAccepts` after a 2-second grace sleep, or the timeout failure. -/
def wait_for_download (timeout_seconds : Nat) (existing : List String)
    (timeline : Nat → List DFile) : WaitOutcome :=
  pollLoop (fun k => findNewFile waitForDownloadAccepts existing (timeline k)) true
    (ceilDiv timeout_seconds 3) 0

/-- `is_ariba_file_ultra_fast` (sistema_iterativo_completo.py, lines 683-701):
the file must still exist, be at least 1000 bytes, and its lower-cased name
must contain one of the quick patterns.  No in-progress-extension check is
performed here. -/
def is_ariba_file_ultra_fast (f : DFile) : Bool :=
  if !f.ex then false
  else if f.size < 1000 then false
  else ["data", ".xls", "600103"].any (fun p => containsSub (lowerString f.name) p)

/-- One poll of `wait_download_ultra_fast`: the union of new files from the
system and local download directories, filtered to the first one passing
`is_ariba_file_ultra_fast`. -/
def ultraProbe (existingSys existingLoc : List String)
    (sysT locT : Nat → List DFile) (k : Nat) : Option DFile :=
  ((sysT k).filter (fun f => !(existingSys.contains f.name)) ++
   (locT k).filter (fun f => !(existingLoc.contains f.name))).find?
    is_ariba_file_ultra_fast

/-- `wait_download_ultra_fast` (sistema_iterativo_completo.py, lines 642-681):
poll every `download_check_interval` (0.5 s) for up to `download_timeout`
(10 s) — both given here in tenths of a second — over the union of new files
from the system and local download directories; return the first file passing
`is_ariba_file_ultra_fast` (without any grace sleep; the rename of a
system-directory hit into the local directory is elided), or the timeout
failure. -/
def wait_download_ultra_fast (timeoutTenths intervalTenths : Nat)
    (existingSys existingLoc : List String)
    (sysT locT : Nat → List DFile) : WaitOutcome :=
  pollLoop (ultraProbe existingSys existingLoc sysT locT) false
    (ceilDiv timeoutTenths intervalTenths) 0

/-- Environment seen by one `navigate_ultra_fast` call: whether `driver.get`
raises (timeout or otherwise), whether `detect_login_page` fires, and whether
`handle_login` then succeeds. -/
structure NavEnv where
  getRaises : Bool
  loginNeeded : Bool
  loginOk : Bool
deriving Repr, DecidableEq

/-- The session-scoped mutable state of `SistemaUltraRapido` the claims speak
about: the consecutive-error counter, the configured skip threshold
(`skip_threshold = 3` by default), and the processed-items history (modelled
as the list of recorded licitación ids). -/
structure SistemaState where
  consecutive_errors : Nat
  skip_threshold : Nat
  history : List String
deriving Repr, DecidableEq

/-- `navigate_ultra_fast` (sistema_iterativo_completo.py, lines 554-588).
First component: the returned boolean.  Second component: whether
`driver.get` was invoked at all (the skip guard returns before any driver
call).  A raise from `driver.get` or a failed login yields `False`; any
exception is caught inside the function. -/
def navigate_ultra_fast (st : SistemaState) (env : NavEnv) : Bool × Bool :=
  if st.skip_threshold ≤ st.consecutive_errors then (false, false)
  else if env.getRaises then (false, true)
  else if env.loginNeeded && !env.loginOk then (false, true)
  else (true, true)

/-- An opportunity record appended by the analysis routines. -/
structure Oportunidad where
  licitacion_id : String
  keywords_found : List String
  score : Nat
  method : String
deriving Repr, DecidableEq

/-- Classification thresholds of the scoring system, with the source's
defaults `ORO 100 / PLATA 60 / BRONCE 30` supplied by configuration. -/
structure Thresholds where
  oro : Nat
  plata : Nat
  bronce : Nat
deriving Repr, DecidableEq

/-- The flattened scoring system built by `load_scoring_system`: an ordered
keyword → score table (upper-cased keys) and the thresholds. -/
structure ScoringSystem where
  keywords : List (String × Nat)
  thresholds : Thresholds

/-- `classify_score_ultra_fast` (sistema_iterativo_completo.py,
lines 787-798). -/
def classify_score_ultra_fast (th : Thresholds) (score : Nat) : String :=
  if th.oro ≤ score then "ORO"
  else if th.plata ≤ score then "PLATA"
  else if th.bronce ≤ score then "BRONCE"
  else "DESCARTADO"

/-- The keyword scan shared by the analysis routines: fold over the keyword
table, adding the score and recording the keyword whenever it occurs in the
text. -/
def keywordScore (keywords : List (String × Nat)) (text : String) :
    Nat × List String :=
  keywords.foldl
    (fun acc kv =>
      if containsSub text kv.1 then (acc.1 + kv.2, acc.2 ++ [kv.1]) else acc)
    (0, [])

/-- `int(total_score * 0.7)`: the 30% no-file penalty.  The source computes it
in floating point and truncates; this model uses the exact rational
`7 * n / 10` truncated, which agrees with the float result except for a
possible one-off at totals where the binary rounding of `n * 0.7` crosses an
integer — no claim depends on the exact value. -/
def penalizeNoFile (n : Nat) : Nat := 7 * n / 10

/-- `analyze_basic_content` (sistema_iterativo_completo.py, lines 749-785):
score the upper-cased title and link text only; the opportunity record keeps
the pre-penalty score, the returned score and classification use the
penalised one. -/
def analyze_basic_content (scoring : ScoringSystem)
    (titulo link licitacion_id : String) : List Oportunidad × Nat × String :=
  let combined := upperString titulo ++ " " ++ upperString link
  let scan := keywordScore scoring.keywords combined
  let ops : List Oportunidad :=
    if scan.2.isEmpty then []
    else [{ licitacion_id := licitacion_id, keywords_found := scan.2,
            score := scan.1, method := "BASIC_TITLE_ANALYSIS" }]
  let total := penalizeNoFile scan.1
  (ops, total, classify_score_ultra_fast scoring.thresholds total)

/-- The `resultado` dict of `process_single_licitacion_ultra_fast`, restricted
to the fields the claims consult. -/
structure ItemResult where
  licitacion_id : String
  success : Bool
  error : Option String
  archivo_descargado : Bool
  modo_procesamiento : String
  oportunidades_encontradas : List Oportunidad
  score : Nat
  classification : Option String
deriving Repr, DecidableEq

/-- Environment of one work item: its id/title/link, the navigation
environment, the outcome of `download_ultra_fast` (`none` = no artifact before
the wait timed out), the outcome `analyze_excel_ultra_fast` would produce for
a downloaded file (supplied by the environment, since that routine reads the
filesystem through pandas), and whether an unexpected exception is raised
during post-navigation processing (with its message). -/
structure ItemEnv where
  lic_id : String
  titulo : String
  link : Option String
  nav : NavEnv
  downloaded : Option DFile
  excelResult : List Oportunidad × Nat × String
  bodyRaises : Bool
  bodyErr : String
deriving Repr, DecidableEq

/-- The initial `resultado` dict (sistema_iterativo_completo.py,
lines 476-490). -/
def initResult (env : ItemEnv) : ItemResult :=
  { licitacion_id := env.lic_id, success := false, error := none,
    archivo_descargado := false, modo_procesamiento := "SIN_ARCHIVO",
    oportunidades_encontradas := [], score := 0, classification := none }

/-- `process_single_licitacion_ultra_fast` (sistema_iterativo_completo.py,
lines 467-552).  Control flow: no link → early return, counter untouched;
navigation failure → counter incremented; unexpected exception → counter
incremented; otherwise (with or without a downloaded artifact) the item is
scored — by the environment-supplied Excel analysis when a file was obtained,
by `analyze_basic_content` on title/link when not — marked successful,
recorded in the history, and the counter reset to zero. -/
def process_single_licitacion_ultra_fast (scoring : ScoringSystem)
    (st : SistemaState) (env : ItemEnv) : ItemResult × SistemaState :=
  let r0 := initResult env
  match env.link with
  | none => ({ r0 with error := some "No link válido" }, st)
  | some link =>
      if (navigate_ultra_fast st env.nav).1 = false then
        ({ r0 with error := some "No se pudo navegar" },
         { st with consecutive_errors := st.consecutive_errors + 1 })
      else if env.bodyRaises then
        ({ r0 with error := some env.bodyErr },
         { st with consecutive_errors := st.consecutive_errors + 1 })
      else
        let scored :=
          match env.downloaded with
          | some _ => env.excelResult
          | none => analyze_basic_content scoring env.titulo link env.lic_id
        ({ r0 with
            success := true,
            archivo_descargado := env.downloaded.isSome,
            modo_procesamiento :=
              if env.downloaded.isSome then "CON_ARCHIVO" else "SIN_ARCHIVO",
            oportunidades_encontradas := scored.1,
            score := scored.2.1,
            classification := some scored.2.2 },
         { st with consecutive_errors := 0,
                   history := st.history ++ [env.lic_id] })

/-- The batch loop (sistema_iterativo_completo.py, lines 889-920): every item
is processed with the threaded state and its result appended; a failed item
only lands in the error list, the loop always continues to the next item. -/
def processBatch (scoring : ScoringSystem) :
    SistemaState → List ItemEnv → SistemaState × List ItemResult
  | st, [] => (st, [])
  | st, env :: rest =>
      let step := process_single_licitacion_ultra_fast scoring st env
      let tail := processBatch scoring step.2 rest
      (tail.1, step.1 :: tail.2)

/-! Concrete inputs used to evaluate the development on closed instances. -/

/-- A plain visible, enabled button whose interactions all succeed and whose
field echoes back exactly what is typed. -/
def baseElem : Element where
  tag := "button"
  text := "Todos los clientes"
  cls := "fd-product-menu__control"
  eid := "b1"
  displayed := true
  enabled := true
  clickableWait := true
  clickRaises := false
  jsClickRaises := false
  acMoveClickRaises := false
  acOffsetClickRaises := false
  submitRaises := false
  spaceRaises := false
  enterRaises := false
  readBack := fun v => v

/-- A visible but disabled control. -/
def elemVisDisabled : Element := { baseElem with enabled := false }

/-- A present but invisible control. -/
def elemInvisible : Element := { baseElem with displayed := false }

/-- A text field that swallows everything typed into it (reads back empty). -/
def elemSwallow : Element := { baseElem with tag := "input", readBack := fun _ => "" }

/-- A non-input, non-button control on which every genuine click method
raises, although the clickability wait passes. -/
def elemAnchor : Element :=
  { baseElem with tag := "a", clickRaises := true, jsClickRaises := true,
                  acMoveClickRaises := true, acOffsetClickRaises := true }

/-- Page whose first selector matches a visible-but-disabled control and whose
second matches a visible, enabled one. -/
def pageDisabledFirst : Page := fun s =>
  if s = "s1" then .found elemVisDisabled
  else if s = "s2" then .found baseElem
  else .timeout

/-- Page whose first selector matches an invisible control and whose second
matches a visible one. -/
def pageInvisibleFirst : Page := fun s =>
  if s = "s1" then .found elemInvisible
  else if s = "s2" then .found baseElem
  else .timeout

/-- Page on which every presence wait times out. -/
def pageAllTimeout : Page := fun _ => .timeout

/-- Page whose only match is a value-swallowing text field. -/
def pageSwallow : Page := fun s =>
  if s = "w1" then .found elemSwallow else .timeout

/-- Page whose only match is an echoing text field. -/
def pageEcho : Page := fun s =>
  if s = "w1" then .found baseElem else .timeout

/-- A button used in the diff-analysis instances. -/
def btnX : Button := ⟨"X", "fd-menu", "<button class=fd-menu>X</button>"⟩

/-- Snapshot with fingerprint 1 and one button. -/
def snapHash1Btn : PageSnapshot := ⟨1, [btnX], []⟩

/-- Snapshot with fingerprint 2 and no buttons. -/
def snapHash2Empty : PageSnapshot := ⟨2, [], []⟩

/-- Snapshot with fingerprint 1 and no buttons. -/
def snapHash1Empty : PageSnapshot := ⟨1, [], []⟩

/-- A finished download whose size and name qualify. -/
def fileGood : DFile := ⟨"data.xlsx", 5000, true⟩

/-- An in-progress download marker file that nevertheless qualifies by size
and name patterns. -/
def filePartial : DFile := ⟨"data.xls.crdownload", 5000, true⟩

/-- Timeline on which no file ever appears. -/
def tlEmpty : Nat → List DFile := fun _ => []

/-- Timeline on which `fileGood` appears from the second poll onwards. -/
def tlLate : Nat → List DFile := fun k => if k = 0 then [] else [fileGood]

/-- Timeline on which only the in-progress marker file is ever present. -/
def tlPartial : Nat → List DFile := fun _ => [filePartial]

/-- A small concrete scoring system (one keyword, default thresholds). -/
def scoringTriv : ScoringSystem := ⟨[("ALFAMINE", 25)], ⟨100, 60, 30⟩⟩

/-- Fresh session state with the default skip threshold of 3. -/
def stFresh : SistemaState := ⟨0, 3, []⟩

/-- Session state with one accumulated consecutive error. -/
def stOneErr : SistemaState := ⟨1, 3, []⟩

/-- Session state already at the skip threshold. -/
def stAtThreshold : SistemaState := ⟨3, 3, []⟩

/-- A navigation environment in which everything works. -/
def navClean : NavEnv := ⟨false, false, false⟩

/-- A navigation environment in which `driver.get` raises. -/
def navBroken : NavEnv := ⟨true, false, false⟩

/-- An item with no link. -/
def envNoLink : ItemEnv :=
  ⟨"L0", "Licitacion sin link", none, navClean, none, ([], 0, "DESCARTADO"), false, ""⟩

/-- An item whose navigation works but whose export produces no artifact
before the wait timeout. -/
def envNoFile : ItemEnv :=
  ⟨"L1", "Perno ALFAMINE", some "https://service.ariba.com/x", navClean, none,
   ([], 0, "DESCARTADO"), false, ""⟩

/-- An item whose navigation fails. -/
def envNavFail : ItemEnv :=
  ⟨"L2", "Otra licitacion", some "https://service.ariba.com/y", navBroken, none,
   ([], 0, "DESCARTADO"), false, ""⟩

/-! Helper lemmas. -/

theorem consAttempt_success (a : Attempt) (r : InteractionResult) :
    (consAttempt a r).success = r.success := rfl

theorem consAttempt_error (a : Attempt) (r : InteractionResult) :
    (consAttempt a r).error = r.error := rfl

theorem consAttempt_attempts (a : Attempt) (r : InteractionResult) :
    (consAttempt a r).attempts = a :: r.attempts := rfl

/-- When no selector on the page yields a present-and-visible element, every
iteration of the selector loop records one failed attempt and the loop ends
in the all-selectors-failed result. -/
theorem robustLoop_all_fail (page : Page) (action : String) (value : Option String)
    (total : Nat) (sels : List String) :
    ∀ i : Nat, (∀ s ∈ sels, usableOutcome (page s) = false) →
      (robustLoop page action value total sels i).success = false ∧
      (robustLoop page action value total sels i).error =
        some ("Todos los " ++ toString total ++ " selectores fallaron") ∧
      (robustLoop page action value total sels i).attempts.length = sels.length := by
  induction sels with
  | nil => intro i _; exact ⟨rfl, rfl, rfl⟩
  | cons s rest ih =>
    intro i h
    have hs : usableOutcome (page s) = false := h s (List.mem_cons_self s rest)
    have hrest : ∀ x ∈ rest, usableOutcome (page x) = false :=
      fun x hx => h x (List.mem_cons_of_mem s hx)
    obtain ⟨ih1, ih2, ih3⟩ := ih (i + 1) hrest
    cases hps : page s with
    | timeout =>
      simp [robustLoop, hps, consAttempt, ih1, ih2, ih3]
    | err msg =>
      simp [robustLoop, hps, consAttempt, ih1, ih2, ih3]
    | found e =>
      have hd : e.displayed = false := by
        rw [hps] at hs; simpa [usableOutcome] using hs
      simp [robustLoop, hps, hd, consAttempt, ih1, ih2, ih3]

/-! Claim theorems. -/

/-- C2: when no locator yields a present-and-visible control,
`robust_element_interaction_improved` returns — without raising: the model is
a total function and the source catches every exception inside the loop — a
result with `success = false`, the all-selectors-failed error message, and one
attempt record per locator, hence a non-empty attempt list whenever the
locator list is non-empty. -/
theorem claim2_thm (page : Page) (action : String) (value : Option String)
    (selectors : List String)
    (h : ∀ s ∈ selectors, usableOutcome (page s) = false) :
    (robust_element_interaction_improved page selectors action value).success = false ∧
    (robust_element_interaction_improved page selectors action value).error =
      some ("Todos los " ++ toString selectors.length ++ " selectores fallaron") ∧
    (robust_element_interaction_improved page selectors action value).attempts.length =
      selectors.length ∧
    (selectors ≠ [] →
      (robust_element_interaction_improved page selectors action value).attempts ≠ []) := by
  obtain ⟨h1, h2, h3⟩ :=
    robustLoop_all_fail page action value selectors.length selectors 0 h
  refine ⟨h1, h2, h3, ?_⟩
  intro hne ha
  apply hne
  have ha' : (robustLoop page action value selectors.length selectors 0).attempts = [] := ha
  have hlen : selectors.length = 0 := by rw [← h3, ha']; rfl
  exact List.length_eq_zero.mp hlen

/-- C2 witness: the two-selector instance on a page where every presence wait
times out. -/
theorem claim2_witness :
    (robust_element_interaction_improved pageAllTimeout ["a", "b"] "click" none).success
      = false ∧
    (robust_element_interaction_improved pageAllTimeout ["a", "b"] "click" none).attempts.length
      = 2 := by
  have h := claim2_thm pageAllTimeout "click" none ["a", "b"] (fun s _ => rfl)
  exact ⟨h.1, h.2.2.1⟩

/-- C1 as stated is false on the code: with the first locator matching a
visible but disabled control, the resolver accepts that locator instead of
skipping it — only `is_displayed` is checked, never `is_enabled`. -/
theorem claim1_counterexample :
    elemVisDisabled.displayed = true ∧ elemVisDisabled.enabled = false ∧
    pageDisabledFirst "s1" = .found elemVisDisabled ∧
    (robust_element_interaction_improved pageDisabledFirst ["s1", "s2"] "find" none).success
      = true ∧
    (robust_element_interaction_improved pageDisabledFirst ["s1", "s2"] "find" none).selector_used
      = some "s1" := by
  exact ⟨rfl, rfl, rfl, rfl, rfl⟩

/-- C1 (amended): visibility alone is the acceptance criterion.  If the first
locator's match is a visible control (enabled or not), the resolver succeeds
with exactly that locator after a single recorded attempt and touches no
later locator; a locator whose match exists but is not visible is skipped
with its attempt recorded while the loop moves on to the remaining locators;
and when the known-locator strategy and the subsequent option selection both
succeed, `select_cliente_autonomous` invokes no later strategy. -/
theorem claim1_amended_thm :
    (∀ (page : Page) (s : String) (rest : List String) (e : Element),
      page s = .found e → e.displayed = true →
      (robust_element_interaction_improved page (s :: rest) "find" none).success = true ∧
      (robust_element_interaction_improved page (s :: rest) "find" none).selector_used
        = some s ∧
      (robust_element_interaction_improved page (s :: rest) "find" none).attempts
        = [⟨s, 1, true, none⟩]) ∧
    (∀ (page : Page) (action : String) (value : Option String) (total i : Nat)
       (s : String) (rest : List String) (e : Element),
      page s = .found e → e.displayed = false →
      robustLoop page action value total (s :: rest) i =
        consAttempt ⟨s, i + 1, false, some "Elemento presente pero no visible"⟩
          (robustLoop page action value total rest (i + 1))) ∧
    (∀ rest : List Bool, select_cliente_autonomous (true :: rest) true = (true, 1)) := by
  refine ⟨?_, ?_, ?_⟩
  · intro page s rest e hps hdisp
    have key : robust_element_interaction_improved page (s :: rest) "find" none =
        { success := true, selector_used := some s, element_info := some e,
          error := none, attempts := [⟨s, 1, true, none⟩] } := by
      unfold robust_element_interaction_improved
      rw [robustLoop, hps]
      simp [hdisp]
    rw [key]
    exact ⟨rfl, rfl, rfl⟩
  · intro page action value total i s rest e hps hdisp
    rw [robustLoop, hps]
    simp [hdisp]
  · intro rest
    rfl

/-- C1 witness: the amended theorem evaluated on a visible first match, on an
invisible first match, and on a successful first strategy. -/
theorem claim1_witness :
    (robust_element_interaction_improved pageEcho ["w1"] "find" none).success = true ∧
    robustLoop pageInvisibleFirst "find" none 2 ["s1", "s2"] 0 =
      consAttempt ⟨"s1", 1, false, some "Elemento presente pero no visible"⟩
        (robustLoop pageInvisibleFirst "find" none 2 ["s2"] 1) ∧
    select_cliente_autonomous [true, false, false, false] true = (true, 1) := by
  refine ⟨(claim1_amended_thm.1 pageEcho "w1" [] baseElem rfl rfl).1, ?_, ?_⟩
  · exact claim1_amended_thm.2.1 pageInvisibleFirst "find" none 2 0 "s1" ["s2"]
      elemInvisible rfl rfl
  · exact claim1_amended_thm.2.2 [false, false, false]

/-- C8: for a write with a non-empty intended value on a present, visible
field, the locator's attempt succeeds exactly when the read-back value equals
the intended value; on a mismatch the attempt is recorded unsuccessful and
the loop moves on to the remaining locators. -/
theorem claim8_thm (page : Page) (s : String) (rest : List String) (e : Element)
    (v : String) (total i : Nat)
    (h1 : page s = .found e) (h2 : e.displayed = true) (h3 : v ≠ "") :
    (e.readBack v = v →
      robustLoop page "write" (some v) total (s :: rest) i =
        { success := true, selector_used := some s, element_info := some e,
          error := none, attempts := [⟨s, i + 1, true, none⟩] }) ∧
    (e.readBack v ≠ v →
      robustLoop page "write" (some v) total (s :: rest) i =
        consAttempt ⟨s, i + 1, false, none⟩
          (robustLoop page "write" (some v) total rest (i + 1))) := by
  constructor
  · intro hrb
    rw [robustLoop, h1]
    simp [h2, h3, hrb]
  · intro hrb
    rw [robustLoop, h1]
    simp [h2, h3, hrb]

/-- C8 witness: an echoing field succeeds; a value-swallowing field's attempt
fails and the loop moves on. -/
theorem claim8_witness :
    robustLoop pageEcho "write" (some "abc") 1 ["w1"] 0 =
      { success := true, selector_used := some "w1", element_info := some baseElem,
        error := none, attempts := [⟨"w1", 1, true, none⟩] } ∧
    robustLoop pageSwallow "write" (some "abc") 1 ["w1"] 0 =
      consAttempt ⟨"w1", 1, false, none⟩
        (robustLoop pageSwallow "write" (some "abc") 1 [] 1) := by
  exact ⟨(claim8_thm pageEcho "w1" [] baseElem "abc" 1 0 rfl rfl (by decide)).1 rfl,
         (claim8_thm pageSwallow "w1" [] elemSwallow "abc" 1 0 rfl rfl (by decide)).2
           (by decide)⟩

/-- C10: for a control that is neither an `input` nor a `button`, when the
clickability wait passes but the direct click, the JavaScript click and both
ActionChains clicks all raise, `_try_multiple_click_methods_improved` still
returns `True`: the guarded Submit/Space/Enter lambdas evaluate to `None`
without raising, so the loop counts one of them as a completed method even
though nothing acted on the control. -/
theorem claim10_thm (e : Element)
    (h1 : e.tag ≠ "input") (h2 : e.tag ≠ "button") (hw : e.clickableWait = true)
    (h3 : e.clickRaises = true) (h4 : e.jsClickRaises = true)
    (h5 : e.acMoveClickRaises = true) (h6 : e.acOffsetClickRaises = true) :
    tryMultipleClickMethodsImproved e = true := by
  simp [tryMultipleClickMethodsImproved, clickMethodRaises, tryClickLoop,
        h1, h2, h3, h4, h5, h6, hw]

/-- C10 witness: the anchor element on which every genuine click raises. -/
theorem claim10_witness :
    elemAnchor.tag = "a" ∧ tryMultipleClickMethodsImproved elemAnchor = true := by
  exact ⟨rfl, claim10_thm elemAnchor (by decide) (by decide) rfl rfl rfl rfl rfl⟩

/-- When no poll in the remaining fuel yields a file, the loop consumes all
the fuel and ends in the timeout failure. -/
theorem pollLoop_none (probe : Nat → Option DFile) (g : Bool) :
    ∀ (fuel k : Nat), (∀ j, j < fuel → probe (k + j) = none) →
      pollLoop probe g fuel k =
        { file := none, polls := k + fuel, graceWaited := false } := by
  intro fuel
  induction fuel with
  | zero => intro k _; simp [pollLoop]
  | succ n ih =>
    intro k h
    have h0 : probe k = none := by
      have := h 0 (Nat.succ_pos n)
      simpa using this
    have hrest : ∀ j, j < n → probe (k + 1 + j) = none := by
      intro j hj
      have := h (j + 1) (Nat.succ_lt_succ hj)
      have harith : k + (j + 1) = k + 1 + j := by omega
      rwa [harith] at this
    have harith : k + 1 + n = k + (n + 1) := by omega
    rw [pollLoop, h0]
    rw [ih (k + 1) hrest, harith]

/-- The first poll offering a file determines the result: the loop returns
that file after exactly that poll. -/
theorem pollLoop_first (probe : Nat → Option DFile) (g : Bool) :
    ∀ (fuel j k : Nat) (f : DFile), j < fuel → probe (k + j) = some f →
      (∀ i, i < j → probe (k + i) = none) →
      pollLoop probe g fuel k =
        { file := some f, polls := k + j + 1, graceWaited := g } := by
  intro fuel
  induction fuel with
  | zero => intro j k f hj _ _; exact absurd hj (Nat.not_lt_zero j)
  | succ n ih =>
    intro j k f hj hsome hnone
    cases j with
    | zero =>
      have h0 : probe k = some f := by simpa using hsome
      rw [pollLoop, h0]
    | succ m =>
      have h0 : probe k = none := by
        have := hnone 0 (Nat.succ_pos m)
        simpa using this
      have hsome' : probe (k + 1 + m) = some f := by
        have harith : k + (m + 1) = k + 1 + m := by omega
        rwa [harith] at hsome
      have hnone' : ∀ i, i < m → probe (k + 1 + i) = none := by
        intro i hi
        have := hnone (i + 1) (Nat.succ_lt_succ hi)
        have harith : k + (i + 1) = k + 1 + i := by omega
        rwa [harith] at this
      have harith : k + 1 + m + 1 = k + (m + 1) + 1 := by omega
      rw [pollLoop, h0, ih m (k + 1) f (Nat.lt_of_succ_lt_succ hj) hsome' hnone', harith]

/-- A returned file always comes from some poll, and the grace flag of a
successful return is the loop's configured grace behaviour. -/
theorem pollLoop_file_inv (probe : Nat → Option DFile) (g : Bool) :
    ∀ (fuel k : Nat) (f : DFile), (pollLoop probe g fuel k).file = some f →
      (∃ j, probe j = some f) ∧ (pollLoop probe g fuel k).graceWaited = g := by
  intro fuel
  induction fuel with
  | zero => intro k f h; exact absurd h (by simp [pollLoop])
  | succ n ih =>
    intro k f h
    cases hp : probe k with
    | some f' =>
      rw [pollLoop, hp] at h ⊢
      exact ⟨⟨k, by rw [hp, Option.some_inj.mp h]⟩, rfl⟩
    | none =>
      rw [pollLoop, hp] at h ⊢
      exact ih (k + 1) f h

/-- A loop configured without the grace sleep never reports having waited
it. -/
theorem pollLoop_grace_of_false (probe : Nat → Option DFile) :
    ∀ (fuel k : Nat), (pollLoop probe false fuel k).graceWaited = false := by
  intro fuel
  induction fuel with
  | zero => intro k; rfl
  | succ n ih =>
    intro k
    cases hp : probe k with
    | some f => rw [pollLoop, hp]
    | none => rw [pollLoop, hp]; exact ih (k + 1)

/-- C4 as stated is false on the code: the ultra-fast variant performs no
in-progress-extension check and no grace wait — a `.crdownload` file that
qualifies by size and name patterns is accepted immediately, while the
improved-engine acceptance test would reject it. -/
theorem claim4_counterexample :
    isInProgressFile filePartial = true ∧ 1000 < filePartial.size ∧
    is_ariba_file_ultra_fast filePartial = true ∧
    (wait_download_ultra_fast 100 5 [] [] tlPartial tlEmpty).file = some filePartial ∧
    (wait_download_ultra_fast 100 5 [] [] tlPartial tlEmpty).graceWaited = false := by
  exact ⟨by decide, by decide, by decide, by decide, by decide⟩

/-- C4 (amended): `wait_for_download` rejects any file whose suffix carries an
in-progress marker, accepts only files over the 1000-byte threshold, and
performs the extra grace wait before returning an accepted file; the
ultra-fast variant instead accepts any existing file of at least 1000 bytes
whose name matches a quick pattern — even one whose extension marks it
in-progress — and never performs a grace wait. -/
theorem claim4_amended_thm :
    (∀ f : DFile, isInProgressFile f = true → waitForDownloadAccepts f = false) ∧
    (∀ (t : Nat) (existing : List String) (timeline : Nat → List DFile) (f : DFile),
      (wait_for_download t existing timeline).file = some f →
      waitForDownloadAccepts f = true ∧
      (wait_for_download t existing timeline).graceWaited = true) ∧
    (∀ f : DFile, f.ex = true → 1000 ≤ f.size →
      containsSub (lowerString f.name) "data" = true →
      isInProgressFile f = true →
      is_ariba_file_ultra_fast f = true) ∧
    (∀ (tT iT : Nat) (eS eL : List String) (sysT locT : Nat → List DFile),
      (wait_download_ultra_fast tT iT eS eL sysT locT).graceWaited = false) := by
  refine ⟨?_, ?_, ?_, ?_⟩
  · intro f h
    simp [waitForDownloadAccepts, h]
  · intro t existing timeline f h
    have h' : (pollLoop
        (fun k => findNewFile waitForDownloadAccepts existing (timeline k)) true
        (ceilDiv t 3) 0).file = some f := h
    obtain ⟨⟨j, hj⟩, hg⟩ := pollLoop_file_inv _ true (ceilDiv t 3) 0 f h'
    unfold findNewFile at hj
    exact ⟨List.find?_some hj, hg⟩
  · intro f h1 h2 h3 _
    have hsz : ¬ (f.size < 1000) := Nat.not_lt.mpr h2
    simp [is_ariba_file_ultra_fast, h1, hsz, h3]
  · intro tT iT eS eL sysT locT
    exact pollLoop_grace_of_false _ (ceilDiv tT iT) 0

/-- C4 witness: the amended theorem evaluated on the marker file, a finished
download, and the two polling loops. -/
theorem claim4_witness :
    waitForDownloadAccepts filePartial = false ∧
    (waitForDownloadAccepts fileGood = true ∧
      (wait_for_download 9 [] tlLate).graceWaited = true) ∧
    is_ariba_file_ultra_fast filePartial = true ∧
    (wait_download_ultra_fast 100 5 [] [] tlEmpty tlEmpty).graceWaited = false := by
  refine ⟨claim4_amended_thm.1 filePartial (by decide), ?_, ?_,
    claim4_amended_thm.2.2.2 100 5 [] [] tlEmpty tlEmpty⟩
  · exact claim4_amended_thm.2.1 9 [] tlLate fileGood (by decide)
  · exact claim4_amended_thm.2.2.1 filePartial rfl (by decide) (by decide) (by decide)

/-- C5: both artifact waits terminate.  When no poll before the fuel bound
(the ceiling of timeout over poll interval) offers a qualifying new file, the
loop runs exactly that many polls — never fewer — and returns the timeout
failure `none`; when the first qualifying new file shows up at poll `j`
before the bound, the loop returns that file's path right at poll `j + 1`,
within one poll interval of its appearance (plus, for `wait_for_download`,
the fixed grace wait). -/
theorem claim5_thm :
    (∀ (t : Nat) (existing : List String) (timeline : Nat → List DFile),
      (∀ k, k < ceilDiv t 3 →
        findNewFile waitForDownloadAccepts existing (timeline k) = none) →
      wait_for_download t existing timeline =
        { file := none, polls := ceilDiv t 3, graceWaited := false }) ∧
    (∀ (t j : Nat) (existing : List String) (timeline : Nat → List DFile) (f : DFile),
      j < ceilDiv t 3 →
      findNewFile waitForDownloadAccepts existing (timeline j) = some f →
      (∀ k, k < j → findNewFile waitForDownloadAccepts existing (timeline k) = none) →
      wait_for_download t existing timeline =
        { file := some f, polls := j + 1, graceWaited := true }) ∧
    (∀ (tT iT : Nat) (eS eL : List String) (sysT locT : Nat → List DFile),
      (∀ k, k < ceilDiv tT iT → ultraProbe eS eL sysT locT k = none) →
      wait_download_ultra_fast tT iT eS eL sysT locT =
        { file := none, polls := ceilDiv tT iT, graceWaited := false }) ∧
    (∀ (tT iT j : Nat) (eS eL : List String) (sysT locT : Nat → List DFile) (f : DFile),
      j < ceilDiv tT iT →
      ultraProbe eS eL sysT locT j = some f →
      (∀ k, k < j → ultraProbe eS eL sysT locT k = none) →
      wait_download_ultra_fast tT iT eS eL sysT locT =
        { file := some f, polls := j + 1, graceWaited := false }) := by
  refine ⟨?_, ?_, ?_, ?_⟩
  · intro t existing timeline h
    have := pollLoop_none
      (fun k => findNewFile waitForDownloadAccepts existing (timeline k)) true
      (ceilDiv t 3) 0 (by simpa using h)
    simpa [wait_for_download] using this
  · intro t j existing timeline f hj hsome hnone
    have := pollLoop_first
      (fun k => findNewFile waitForDownloadAccepts existing (timeline k)) true
      (ceilDiv t 3) j 0 f hj (by simpa using hsome) (by simpa using hnone)
    simpa [wait_for_download] using this
  · intro tT iT eS eL sysT locT h
    have := pollLoop_none (ultraProbe eS eL sysT locT) false
      (ceilDiv tT iT) 0 (by simpa using h)
    simpa [wait_download_ultra_fast] using this
  · intro tT iT j eS eL sysT locT f hj hsome hnone
    have := pollLoop_first (ultraProbe eS eL sysT locT) false
      (ceilDiv tT iT) j 0 f hj (by simpa using hsome) (by simpa using hnone)
    simpa [wait_download_ultra_fast] using this

/-- C5 witness: with a 9-second timeout (three 3-second polls) the improved
wait times out on an always-empty directory after exactly three polls, and
returns the file that appears at the second poll right then; with the default
10 s / 0.5 s ultra-fast policy (twenty polls) likewise. -/
theorem claim5_witness :
    wait_for_download 9 [] tlEmpty = { file := none, polls := 3, graceWaited := false } ∧
    wait_for_download 9 [] tlLate =
      { file := some fileGood, polls := 2, graceWaited := true } ∧
    wait_download_ultra_fast 100 5 [] [] tlEmpty tlEmpty =
      { file := none, polls := 20, graceWaited := false } ∧
    wait_download_ultra_fast 100 5 [] [] tlLate tlEmpty =
      { file := some fileGood, polls := 2, graceWaited := false } := by
  refine ⟨?_, ?_, ?_, ?_⟩
  · exact claim5_thm.1 9 [] tlEmpty (by decide)
  · exact claim5_thm.2.1 9 1 [] tlLate fileGood (by decide) (by decide) (by decide)
  · exact claim5_thm.2.2.1 100 5 [] [] tlEmpty tlEmpty (by decide)
  · exact claim5_thm.2.2.2 100 5 1 [] [] tlLate tlEmpty fileGood (by decide) (by decide)
      (by decide)

/-- Boolean inequality of integers is symmetric in its arguments. -/
theorem intBneSymm (x y : Int) : (x != y) = (y != x) := by
  by_cases h : x = y
  · subst h; rfl
  · have h1 : (x == y) = false := beq_eq_false_iff_ne.mpr h
    have h2 : (y == x) = false := beq_eq_false_iff_ne.mpr (Ne.symm h)
    simp [bne, h1, h2]

/-- The likely-activated inference, read off the analysis record: the first
new element, gated on the page having changed. -/
theorem analyzeLikelySpec (b a : PageSnapshot) :
    (analyze_element_differences b a).likely_clicked_element =
      (if (analyze_element_differences b a).page_changed &&
          !(analyze_element_differences b a).new_elements.isEmpty then
        (analyze_element_differences b a).new_elements.head?
      else none) := rfl

/-- Every batch run produces exactly one result per item: no item aborts the
loop. -/
theorem processBatch_length (scoring : ScoringSystem) :
    ∀ (envs : List ItemEnv) (st : SistemaState),
      (processBatch scoring st envs).2.length = envs.length := by
  intro envs
  induction envs with
  | nil => intro st; rfl
  | cons e rest ih => intro st; simp [processBatch, ih]

/-- C6 as stated is false on the code: `disappeared_elements` is initialised
to the empty list and never filled in, so the appeared set of one direction is
not the disappeared set of the other — here one direction's appeared set is
`[btnX]` while the opposite direction's disappeared set is empty. -/
theorem claim6_counterexample :
    (analyze_element_differences snapHash2Empty snapHash1Btn).new_elements =
      [DiffElement.button btnX] ∧
    (analyze_element_differences snapHash1Btn snapHash2Empty).disappeared_elements = [] ∧
    (analyze_element_differences snapHash2Empty snapHash1Btn).new_elements ≠
      (analyze_element_differences snapHash1Btn snapHash2Empty).disappeared_elements := by
  exact ⟨by decide, rfl, by decide⟩

/-- C6 (amended): the two argument orders produce identical page-changed
booleans, but the disappeared set is not computed at all — it is the empty
list for every pair of snapshots — so the appeared/disappeared swap relation
does not hold. -/
theorem claim6_amended_thm (b a : PageSnapshot) :
    (analyze_element_differences b a).page_changed =
      (analyze_element_differences a b).page_changed ∧
    (analyze_element_differences b a).disappeared_elements = [] := by
  constructor
  · show (b.page_hash != a.page_hash) = (a.page_hash != b.page_hash)
    exact intBneSymm _ _
  · rfl

/-- C7 as stated is false on the code: when the appeared set is non-empty but
the fingerprint did not change, the likely-activated inference is null, not
the first appeared element. -/
theorem claim7_counterexample :
    (analyze_element_differences snapHash1Empty snapHash1Btn).new_elements =
      [DiffElement.button btnX] ∧
    (analyze_element_differences snapHash1Empty snapHash1Btn).page_changed = false ∧
    (analyze_element_differences snapHash1Empty snapHash1Btn).likely_clicked_element
      = none := by
  exact ⟨by decide, by decide, by decide⟩

/-- C7 (amended): the likely-activated control is the first appeared element
exactly when the appeared set is non-empty AND the fingerprint changed; it is
null whenever the appeared set is empty or the fingerprint is unchanged. -/
theorem claim7_amended_thm (b a : PageSnapshot) :
    ((analyze_element_differences b a).page_changed = true →
      (analyze_element_differences b a).new_elements ≠ [] →
      (analyze_element_differences b a).likely_clicked_element =
        (analyze_element_differences b a).new_elements.head?) ∧
    ((analyze_element_differences b a).new_elements = [] →
      (analyze_element_differences b a).likely_clicked_element = none) ∧
    ((analyze_element_differences b a).page_changed = false →
      (analyze_element_differences b a).likely_clicked_element = none) := by
  refine ⟨?_, ?_, ?_⟩
  · intro h1 h2
    rw [analyzeLikelySpec, h1]
    have h3 : (analyze_element_differences b a).new_elements.isEmpty = false := by
      cases hne : (analyze_element_differences b a).new_elements with
      | nil => exact absurd hne h2
      | cons x xs => rfl
    rw [h3]
    rfl
  · intro h1
    rw [analyzeLikelySpec, h1]
    simp
  · intro h1
    rw [analyzeLikelySpec, h1]
    rfl

/-- C7 witness: with a changed fingerprint and one appeared button the
inference is that button; with identical snapshots it is null. -/
theorem claim7_witness :
    (analyze_element_differences snapHash2Empty snapHash1Btn).likely_clicked_element =
      (analyze_element_differences snapHash2Empty snapHash1Btn).new_elements.head? ∧
    (analyze_element_differences snapHash1Btn snapHash1Btn).likely_clicked_element
      = none := by
  exact ⟨(claim7_amended_thm snapHash2Empty snapHash1Btn).1 (by decide) (by decide),
         (claim7_amended_thm snapHash1Btn snapHash1Btn).2.1 (by decide)⟩

/-- C3 as stated is false on the code: an item rejected for lacking a link is
an item failure (`success = false`, error set), yet the consecutive-error
counter is not incremented — it stays at 1 here instead of moving to 2. -/
theorem claim3_counterexample :
    (process_single_licitacion_ultra_fast scoringTriv stOneErr envNoLink).1.success
      = false ∧
    (process_single_licitacion_ultra_fast scoringTriv stOneErr envNoLink).1.error
      = some "No link válido" ∧
    (process_single_licitacion_ultra_fast scoringTriv stOneErr envNoLink).2.consecutive_errors
      = 1 := by
  exact ⟨rfl, rfl, rfl⟩

/-- C3 (amended): the counter resets to zero on every successful item, is
incremented on every failure of an item that has a link (navigation failure or
unhandled exception), but stays untouched when the item is rejected for
lacking a link; and once the counter has reached the skip threshold,
`navigate_ultra_fast` returns failure immediately without invoking the driver
at all. -/
theorem claim3_amended_thm :
    (∀ (scoring : ScoringSystem) (st : SistemaState) (env : ItemEnv),
      (process_single_licitacion_ultra_fast scoring st env).1.success = true →
      (process_single_licitacion_ultra_fast scoring st env).2.consecutive_errors = 0) ∧
    (∀ (scoring : ScoringSystem) (st : SistemaState) (env : ItemEnv) (l : String),
      env.link = some l →
      (process_single_licitacion_ultra_fast scoring st env).1.success = false →
      (process_single_licitacion_ultra_fast scoring st env).2.consecutive_errors =
        st.consecutive_errors + 1) ∧
    (∀ (scoring : ScoringSystem) (st : SistemaState) (env : ItemEnv),
      env.link = none →
      (process_single_licitacion_ultra_fast scoring st env).1.success = false ∧
      (process_single_licitacion_ultra_fast scoring st env).2 = st) ∧
    (∀ (st : SistemaState) (nav : NavEnv),
      st.skip_threshold ≤ st.consecutive_errors →
      navigate_ultra_fast st nav = (false, false)) := by
  refine ⟨?_, ?_, ?_, ?_⟩
  · intro scoring st env h
    cases hl : env.link with
    | none =>
      rw [process_single_licitacion_ultra_fast, hl] at h
      simp [initResult] at h
    | some l =>
      cases hnav : (navigate_ultra_fast st env.nav).1 with
      | false =>
        rw [process_single_licitacion_ultra_fast, hl] at h
        simp [hnav, initResult] at h
      | true =>
        cases hb : env.bodyRaises with
        | true =>
          rw [process_single_licitacion_ultra_fast, hl] at h
          simp [hnav, hb, initResult] at h
        | false =>
          rw [process_single_licitacion_ultra_fast, hl]
          simp [hnav, hb]
  · intro scoring st env l hl h
    cases hnav : (navigate_ultra_fast st env.nav).1 with
    | false =>
      rw [process_single_licitacion_ultra_fast, hl]
      simp [hnav]
    | true =>
      cases hb : env.bodyRaises with
      | true =>
        rw [process_single_licitacion_ultra_fast, hl]
        simp [hnav, hb]
      | false =>
        rw [process_single_licitacion_ultra_fast, hl] at h
        simp [hnav, hb, initResult] at h
  · intro scoring st env hl
    rw [process_single_licitacion_ultra_fast, hl]
    exact ⟨rfl, rfl⟩
  · intro st nav h
    simp [navigate_ultra_fast, h]

/-- C3 witness: the amended theorem evaluated on a successful item, a
navigation-failing item, a linkless item, and a state at the threshold. -/
theorem claim3_witness :
    (process_single_licitacion_ultra_fast scoringTriv stOneErr envNoFile).2.consecutive_errors
      = 0 ∧
    (process_single_licitacion_ultra_fast scoringTriv stOneErr envNavFail).2.consecutive_errors
      = 2 ∧
    ((process_single_licitacion_ultra_fast scoringTriv stOneErr envNoLink).1.success
        = false ∧
      (process_single_licitacion_ultra_fast scoringTriv stOneErr envNoLink).2 = stOneErr) ∧
    navigate_ultra_fast stAtThreshold navClean = (false, false) := by
  refine ⟨claim3_amended_thm.1 scoringTriv stOneErr envNoFile (by decide), ?_,
    claim3_amended_thm.2.2.1 scoringTriv stOneErr envNoLink rfl,
    claim3_amended_thm.2.2.2 stAtThreshold navClean (by decide)⟩
  exact claim3_amended_thm.2.1 scoringTriv stOneErr envNavFail
    "https://service.ariba.com/y" rfl (by decide)

/-- C9: an item whose navigation works but whose export yields no artifact
before the wait timeout is not aborted: the item records the `none` download
outcome, is scored through the degraded `analyze_basic_content` path on its
title and link only, is still marked successful, lands in the processed
history, and the batch loop always continues to the next item, one result per
item. -/
theorem claim9_thm (scoring : ScoringSystem) (st : SistemaState) (env : ItemEnv)
    (l : String)
    (h1 : env.link = some l)
    (h2 : (navigate_ultra_fast st env.nav).1 = true)
    (h3 : env.bodyRaises = false)
    (h4 : env.downloaded = none) :
    (process_single_licitacion_ultra_fast scoring st env).1.success = true ∧
    (process_single_licitacion_ultra_fast scoring st env).1.archivo_descargado = false ∧
    (process_single_licitacion_ultra_fast scoring st env).1.modo_procesamiento
      = "SIN_ARCHIVO" ∧
    (process_single_licitacion_ultra_fast scoring st env).1.oportunidades_encontradas =
      (analyze_basic_content scoring env.titulo l env.lic_id).1 ∧
    (process_single_licitacion_ultra_fast scoring st env).1.score =
      (analyze_basic_content scoring env.titulo l env.lic_id).2.1 ∧
    (process_single_licitacion_ultra_fast scoring st env).1.classification =
      some (analyze_basic_content scoring env.titulo l env.lic_id).2.2 ∧
    (process_single_licitacion_ultra_fast scoring st env).2.consecutive_errors = 0 ∧
    env.lic_id ∈ (process_single_licitacion_ultra_fast scoring st env).2.history ∧
    (∀ (st0 : SistemaState) (envs : List ItemEnv),
      (processBatch scoring st0 envs).2.length = envs.length) := by
  rw [process_single_licitacion_ultra_fast, h1]
  simp only [h2, h3, h4]
  refine ⟨rfl, rfl, rfl, rfl, rfl, rfl, rfl, ?_, ?_⟩
  · simp
  · intro st0 envs
    exact processBatch_length scoring envs st0

/-- C9 witness: the no-artifact item is processed, scored from its title and
link, and a two-item batch containing it yields two results. -/
theorem claim9_witness :
    (process_single_licitacion_ultra_fast scoringTriv stFresh envNoFile).1.success
      = true ∧
    (process_single_licitacion_ultra_fast scoringTriv stFresh envNoFile).1.modo_procesamiento
      = "SIN_ARCHIVO" ∧
    (process_single_licitacion_ultra_fast scoringTriv stFresh envNoFile).1.score =
      (analyze_basic_content scoringTriv "Perno ALFAMINE" "https://service.ariba.com/x"
        "L1").2.1 ∧
    (processBatch scoringTriv stFresh [envNoFile, envNoLink]).2.length = 2 := by
  have h := claim9_thm scoringTriv stFresh envNoFile "https://service.ariba.com/x"
    rfl rfl rfl rfl
  exact ⟨h.1, h.2.2.1, h.2.2.2.2.1, h.2.2.2.2.2.2.2.2 stFresh [envNoFile, envNoLink]⟩

end Ariba
